import Mathlib

/-!
Shallow embedding of `bot/services/nalogo_service.py` (class `NalogoService`).

The service wraps an external API client (the `nalogo` library `Client`).
We model:
  * JSON values (`JVal`) with Python truthiness (`truthy`), since the
    response-identifier extraction uses Python's truthiness-based `or` chain;
  * Python `Decimal` values built from decimal strings (`Dec`, `pyDecimal`),
    since amounts go through `Decimal(str(amount))`;
  * the collaborator (`Collab`) as an oracle giving the outcome of each
    awaited call (`get_token`, `create_new_access_token`, `authenticate`,
    `http_client.post`), each of which may raise (`Except.error`);
  * the service operations as pure functions that thread the service state
    (the Python methods never assign to `self`) and also return the list of
    collaborator calls performed (`Ev` trace), so that effect claims
    (how many HTTP POSTs were issued) are statable.

Exceptions are modelled by `Except`: a Python `raise` that escapes an
operation is an `Except.error` result; a caught exception never surfaces.
-/

/-- JSON values as decoded by `response.json()` / stored in Python dicts.
Python `None` is `jnull`; a `dict.get` miss also yields `jnull`. -/
inductive JVal where
  | jnull
  | jbool (b : Bool)
  | jnum (q : ℚ)
  | jstr (s : String)
  | jarr (xs : List JVal)
  | jobj (fields : List (String × JVal))

/-- Python truthiness of a JSON value: `None`, `False`, `0`, `""`, `[]`, `{}`
are falsy, everything else truthy. -/
def truthy : JVal → Bool
  | JVal.jnull => false
  | JVal.jbool b => b
  | JVal.jnum q => decide (q ≠ 0)
  | JVal.jstr s => !s.data.isEmpty
  | JVal.jarr xs => !xs.isEmpty
  | JVal.jobj fs => !fs.isEmpty

/-- `payload.get(k)`: first binding of `k`, else `None` (Python dicts have
unique keys, so first-match lookup is faithful). -/
def jget (fields : List (String × JVal)) (k : String) : JVal :=
  match fields.find? (fun p => p.1 == k) with
  | some p => p.2
  | none => JVal.jnull

/-- Python `a or b`: `a` if truthy, else `b`. -/
def pyOr (a b : JVal) : JVal :=
  if truthy a then a else b

/-- The receipt-identifier extraction in `create_income_receipt`:
`payload.get("approvedReceiptUuid") or payload.get("receiptUuid") or
payload.get("receipt_uuid")`. -/
def extractUuid (payload : List (String × JVal)) : JVal :=
  pyOr (jget payload "approvedReceiptUuid")
    (pyOr (jget payload "receiptUuid") (jget payload "receipt_uuid"))

/-- Whether the payload carries a binding for `k` at all. -/
def keyPresent (fields : List (String × JVal)) (k : String) : Bool :=
  (fields.find? (fun p => p.1 == k)).isSome

/-- The spec's wording of the identifier extraction, for comparison with
`extractUuid`: the first *non-absent* value among the three keys, in
priority order (claim C2's reading). -/
def firstNonAbsentUuid (payload : List (String × JVal)) : JVal :=
  if keyPresent payload "approvedReceiptUuid" then
    jget payload "approvedReceiptUuid"
  else if keyPresent payload "receiptUuid" then jget payload "receiptUuid"
  else if keyPresent payload "receipt_uuid" then jget payload "receipt_uuid"
  else JVal.jnull

/-- A `decimal.Decimal` value: `mantissa * 10 ^ (-scale)`.  This covers
exactly the decimals produced from plain fixed-point strings such as the
`str()` rendering of ordinary floats (`"19.99"`, `"3.0"`); exponent
notation and the special values are outside the fragment the service uses. -/
structure Dec where
  mantissa : Int
  scale : Nat
deriving DecidableEq

/-- Rational value denoted by a `Dec`. -/
def Dec.toRat (d : Dec) : ℚ :=
  (d.mantissa : ℚ) / (10 : ℚ) ^ d.scale

/-- `Decimal` multiplication: digits multiply, exponents add (exact). -/
def Dec.mul (a b : Dec) : Dec :=
  ⟨a.mantissa * b.mantissa, a.scale + b.scale⟩

/-- Numeric value of an all-digit character list. -/
def digitsVal (cs : List Char) : Nat :=
  cs.foldl (fun acc c => acc * 10 + (c.toNat - 48)) 0

/-- `Decimal(s)` on a plain fixed-point decimal string: optional sign,
digits, optional `'.'` and fraction digits; `none` models the constructor
raising `InvalidOperation`. -/
def pyDecimal (s : String) : Option Dec :=
  let p :=
    match s.data with
    | '-' :: r => (true, r)
    | '+' :: r => (false, r)
    | r => (false, r)
  let ip := p.2.takeWhile Char.isDigit
  let rest := p.2.dropWhile Char.isDigit
  let signed : Nat → Int := fun n => if p.1 then -(n : Int) else (n : Int)
  match rest with
  | [] =>
    if ip.isEmpty then none
    else some ⟨signed (digitsVal ip), 0⟩
  | '.' :: fp =>
    if fp.all Char.isDigit && !(ip.isEmpty && fp.isEmpty) then
      some ⟨signed (digitsVal (ip ++ fp)), fp.length⟩
    else none
  | _ => none

/-- `str()` of a `Decimal` in the fixed-point range: digit string with the
decimal point inserted `scale` places from the right (zero-padded). -/
def Dec.render (d : Dec) : String :=
  let s := toString d.mantissa.natAbs
  let s := if s.length ≤ d.scale then
      String.mk (List.replicate (d.scale + 1 - s.length) '0') ++ s
    else s
  let body := if d.scale = 0 then s
    else s.take (s.length - d.scale) ++ "." ++ s.drop (s.length - d.scale)
  if d.mantissa < 0 then "-" ++ body else body

/-- A wall-clock `datetime` (opaque instant; `datetime` objects are always
truthy in Python, so `Option DateTime` fully captures `Optional[datetime]`
under the `if operation_time` test). -/
structure DateTime where
  instant : Int
deriving DecidableEq

/-- The `nalogo` wire-format timestamp wrapper `AtomDateTime`. -/
structure AtomDateTime where
  instant : Int
deriving DecidableEq

/-- `AtomDateTime.from_datetime`. -/
def AtomDateTime.from_datetime (d : DateTime) : AtomDateTime :=
  ⟨d.instant⟩

/-- Modelled from the spec: the `nalogo` library `IncomeClient` descriptor
(not in this repository); the spec only requires a "default empty/anonymous
client" `IncomeClient()`, and instances are always truthy. -/
structure IncomeClient where
  fields : List (String × JVal) := []

/-- Modelled from the spec: the `nalogo` `PaymentType` enum; the service
always uses the account-transfer value `ACCOUNT`. -/
inductive PaymentType where
  | ACCOUNT
  | CARD
deriving DecidableEq

/-- The `nalogo` `IncomeServiceItem`: name, unit amount, quantity. -/
structure IncomeServiceItem where
  name : String
  amount : Dec
  quantity : Dec
deriving DecidableEq

/-- Modelled from the spec: `IncomeServiceItem.get_total_amount` lives in
the `nalogo` library (not in this repository); the spec states the item
"derives a total amount (amount × quantity), computed with exact decimal
arithmetic". -/
def IncomeServiceItem.get_total_amount (it : IncomeServiceItem) : Dec :=
  Dec.mul it.amount it.quantity

/-- The `nalogo` `IncomeRequest` DTO, with the fields the service sets. -/
structure IncomeRequest where
  operation_time : AtomDateTime
  request_time : AtomDateTime
  services : List IncomeServiceItem
  total_amount : String
  client : IncomeClient
  payment_type : PaymentType
  ignore_max_total_income_restriction : Bool

/-- Python `str.strip()` (on the ASCII whitespace the credentials use). -/
def pyStrip (s : String) : String :=
  String.mk
    (((s.data.dropWhile Char.isWhitespace).reverse.dropWhile
      Char.isWhitespace).reverse)

/-- Python truthiness of an `Optional[str]`. -/
def pyStrTruthy : Option String → Bool
  | none => false
  | some s => !s.data.isEmpty

/-- The state of a `NalogoService` instance: the fields set in `__init__`.
`hasClient` models `self._client is not None`. -/
structure NalogoService where
  inn : Option String
  password : Option String
  configured : Bool
  hasClient : Bool
deriving DecidableEq

/-- `NalogoService.__init__(inn, password)`:
`self.inn = inn.strip() if inn else None`;
`self.configured = bool(self.inn and self.password)`;
`self._client = Client() if self.configured else None`. -/
def NalogoService.init (inn password : Option String) : NalogoService :=
  let inn1 : Option String :=
    match inn with
    | some s => if s.data.isEmpty then none else some (pyStrip s)
    | none => none
  let conf := pyStrTruthy inn1 && pyStrTruthy password
  ⟨inn1, password, conf, conf⟩

/-- One collaborator call performed by the service (each is an awaited
method of the external client; only `postCall` is an HTTP request issued
by this service — the others are opaque collaborator operations). -/
inductive Ev where
  | getTokenCall
  | createTokenCall
  | authenticateCall
  | postCall
deriving DecidableEq

/-- Number of HTTP POST requests in a trace. -/
def countPost (tr : List Ev) : Nat :=
  (tr.filter (fun e => e == Ev.postCall)).length

/-- The HTTP response object: `response.json()` may itself raise. -/
structure Resp (E : Type) where
  json : Except E (List (String × JVal))

/-- The collaborator oracle: the outcome of each awaited call on the
external `nalogo` client in one execution.  `Except.error` models the call
raising. -/
structure Collab (E : Type) where
  get_token : Except E JVal
  create_new_access_token : Option String → Option String → Except E String
  authenticate : String → Except E Unit
  post : String → IncomeRequest → Except E (Resp E)

/-- `NalogoService._ensure_authenticated`.  Returns the (unchanged) state,
the trace of collaborator calls, and the result: `Except.error` when an
exception escapes the method, otherwise `Except.ok` of the returned bool.
Note that `get_token()` is awaited outside the `try`, so its exception
propagates; only `create_new_access_token` / `authenticate` failures are
caught. -/
def ensureAuthenticated {E : Type} (svc : NalogoService) (c : Collab E) :
    NalogoService × List Ev × Except E Bool :=
  if !svc.hasClient then (svc, [], Except.ok false)
  else
    match c.get_token with
    | Except.error e => (svc, [Ev.getTokenCall], Except.error e)
    | Except.ok token_data =>
      if truthy token_data then (svc, [Ev.getTokenCall], Except.ok true)
      else
        match c.create_new_access_token svc.inn svc.password with
        | Except.error _ =>
          (svc, [Ev.getTokenCall, Ev.createTokenCall], Except.ok false)
        | Except.ok token_json =>
          match c.authenticate token_json with
          | Except.error _ =>
            (svc, [Ev.getTokenCall, Ev.createTokenCall, Ev.authenticateCall],
              Except.ok false)
          | Except.ok _ =>
            (svc, [Ev.getTokenCall, Ev.createTokenCall, Ev.authenticateCall],
              Except.ok true)

/-- The request-construction block of `create_income_receipt` (the body of
the `try` up to the POST): builds the `IncomeServiceItem` from
`Decimal(str(amount))` / `Decimal(str(quantity))` (the string arguments
are the `str()` renderings of the float parameters) and the
`IncomeRequest`; `none` models the construction raising. -/
def buildRequest (item_name amountStr quantityStr : String)
    (client : Option IncomeClient) (operation_time : Option DateTime)
    (now : AtomDateTime) : Option IncomeRequest :=
  match pyDecimal amountStr, pyDecimal quantityStr with
  | some a, some q =>
    let service_item : IncomeServiceItem := ⟨item_name, a, q⟩
    let total_amount := service_item.get_total_amount
    some
      ⟨(match operation_time with
        | some d => AtomDateTime.from_datetime d
        | none => now),
       now,
       [service_item],
       Dec.render total_amount,
       client.getD ⟨[]⟩,
       PaymentType.ACCOUNT,
       false⟩
  | _, _ => none

/-- `NalogoService.create_income_receipt`.  `now` is the instant that
`AtomDateTime.now()` returns during this call.  The result is
`Except.error` when an exception escapes the method (only possible via
`_ensure_authenticated`, which is awaited outside the `try`), otherwise
`Except.ok` of the returned value (`jnull` for Python `None`). -/
def createIncomeReceipt {E : Type} (svc : NalogoService) (c : Collab E)
    (item_name amountStr quantityStr : String)
    (client : Option IncomeClient) (operation_time : Option DateTime)
    (now : AtomDateTime) : NalogoService × List Ev × Except E JVal :=
  if !svc.configured then (svc, [], Except.ok JVal.jnull)
  else
    match ensureAuthenticated svc c with
    | (svc1, tr, Except.error e) => (svc1, tr, Except.error e)
    | (svc1, tr, Except.ok false) => (svc1, tr, Except.ok JVal.jnull)
    | (svc1, tr, Except.ok true) =>
      match buildRequest item_name amountStr quantityStr client
          operation_time now with
      | none => (svc1, tr, Except.ok JVal.jnull)
      | some req =>
        match c.post "/income" req with
        | Except.error _ => (svc1, tr ++ [Ev.postCall], Except.ok JVal.jnull)
        | Except.ok resp =>
          match resp.json with
          | Except.error _ =>
            (svc1, tr ++ [Ev.postCall], Except.ok JVal.jnull)
          | Except.ok payload =>
            (svc1, tr ++ [Ev.postCall], Except.ok (extractUuid payload))

/-- `NalogoService.close`: `return None`, no state change, no effect. -/
def NalogoService.close (svc : NalogoService) : NalogoService × List Ev :=
  (svc, [])

/-- A collaborator in which authentication succeeds immediately (a token is
already held) and the POST succeeds with response payload `p`. -/
def stubCollab (p : List (String × JVal)) : Collab Unit :=
  ⟨Except.ok (JVal.jstr "token"),
   fun _ _ => Except.ok "token-json",
   fun _ => Except.ok (),
   fun _ _ => Except.ok ⟨Except.ok p⟩⟩

/-- A collaborator whose token-presence query raises. -/
def raisingTokenCollab : Collab Unit :=
  ⟨Except.error (),
   fun _ _ => Except.ok "token-json",
   fun _ => Except.ok (),
   fun _ _ => Except.ok ⟨Except.ok []⟩⟩

/-! ### Helper lemmas -/

theorem pyStrTruthy_iff (o : Option String) :
    pyStrTruthy o = true ↔ ∃ s, o = some s ∧ s ≠ "" := by
  cases o with
  | none => simp [pyStrTruthy]
  | some s =>
    have hd : s.data = [] ↔ s = "" := by
      constructor
      · intro h; cases s; simp_all
      · intro h; subst h; rfl
    simp [pyStrTruthy, List.isEmpty_iff, hd]

theorem ensure_fst {E : Type} (svc : NalogoService) (c : Collab E) :
    (ensureAuthenticated svc c).1 = svc := by
  unfold ensureAuthenticated
  split
  · rfl
  · split
    · rfl
    · split
      · rfl
      · split
        · rfl
        · split <;> rfl

theorem ensure_countPost {E : Type} (svc : NalogoService) (c : Collab E) :
    countPost (ensureAuthenticated svc c).2.1 = 0 := by
  unfold ensureAuthenticated
  split
  · rfl
  · split
    · rfl
    · split
      · rfl
      · split
        · rfl
        · split <;> rfl

theorem ensure_ok_of_get_token_ok {E : Type} (svc : NalogoService)
    (c : Collab E) (t : JVal) (ht : c.get_token = Except.ok t) :
    ∃ b, (ensureAuthenticated svc c).2.2 = Except.ok b := by
  cases hcl : svc.hasClient with
  | false => exact ⟨false, by simp [ensureAuthenticated, hcl]⟩
  | true =>
    cases htt : truthy t with
    | true => exact ⟨true, by simp [ensureAuthenticated, hcl, ht, htt]⟩
    | false =>
      cases hcr : c.create_new_access_token svc.inn svc.password with
      | error e =>
        exact ⟨false, by simp [ensureAuthenticated, hcl, ht, htt, hcr]⟩
      | ok tj =>
        cases hau : c.authenticate tj with
        | error e =>
          exact ⟨false, by simp [ensureAuthenticated, hcl, ht, htt, hcr, hau]⟩
        | ok u =>
          exact ⟨true, by simp [ensureAuthenticated, hcl, ht, htt, hcr, hau]⟩

theorem ensure_token_present {E : Type} (svc : NalogoService) (c : Collab E)
    (t : JVal) (hcl : svc.hasClient = true) (ht : c.get_token = Except.ok t)
    (htt : truthy t = true) :
    ensureAuthenticated svc c = (svc, [Ev.getTokenCall], Except.ok true) := by
  unfold ensureAuthenticated
  rw [hcl, ht]
  simp [htt]

theorem buildRequest_eq_some (item_name amountStr quantityStr : String)
    (a q : Dec) (client : Option IncomeClient)
    (operation_time : Option DateTime) (now : AtomDateTime)
    (ha : pyDecimal amountStr = some a) (hq : pyDecimal quantityStr = some q) :
    buildRequest item_name amountStr quantityStr client operation_time now =
      some
        ⟨(match operation_time with
          | some d => AtomDateTime.from_datetime d
          | none => now),
         now,
         [⟨item_name, a, q⟩],
         Dec.render (IncomeServiceItem.get_total_amount ⟨item_name, a, q⟩),
         client.getD ⟨[]⟩,
         PaymentType.ACCOUNT,
         false⟩ := by
  unfold buildRequest
  rw [ha, hq]

theorem countPost_append (xs ys : List Ev) :
    countPost (xs ++ ys) = countPost xs + countPost ys := by
  simp [countPost, List.filter_append]

theorem create_fst {E : Type} (svc : NalogoService) (c : Collab E)
    (item_name amountStr quantityStr : String) (client : Option IncomeClient)
    (operation_time : Option DateTime) (now : AtomDateTime) :
    (createIncomeReceipt svc c item_name amountStr quantityStr client
      operation_time now).1 = svc := by
  rcases he : ensureAuthenticated svc c with ⟨svc1, tr, r⟩
  have h1 : svc1 = svc := by
    have h := ensure_fst svc c
    rw [he] at h
    exact h
  cases hc : svc.configured
  · simp [createIncomeReceipt, hc]
  · cases r with
    | error e => simp [createIncomeReceipt, hc, he, h1]
    | ok b =>
      cases b
      · simp [createIncomeReceipt, hc, he, h1]
      · cases hb : buildRequest item_name amountStr quantityStr client
            operation_time now with
        | none => simp [createIncomeReceipt, hc, he, hb, h1]
        | some req =>
          cases hp : c.post "/income" req with
          | error e => simp [createIncomeReceipt, hc, he, hb, hp, h1]
          | ok resp =>
            cases hj : resp.json with
            | error e => simp [createIncomeReceipt, hc, he, hb, hp, hj, h1]
            | ok payload => simp [createIncomeReceipt, hc, he, hb, hp, hj, h1]

theorem create_receipt_run {E : Type} (c : Collab E)
    (inn password : Option String)
    (item_name amountStr quantityStr : String) (a q : Dec)
    (client : Option IncomeClient) (operation_time : Option DateTime)
    (now : AtomDateTime) (p : List (String × JVal)) (t : JVal)
    (hconf : (NalogoService.init inn password).configured = true)
    (ht : c.get_token = Except.ok t) (htt : truthy t = true)
    (hpost : ∀ path req, c.post path req = Except.ok ⟨Except.ok p⟩)
    (ha : pyDecimal amountStr = some a) (hq : pyDecimal quantityStr = some q) :
    (createIncomeReceipt (NalogoService.init inn password) c item_name
      amountStr quantityStr client operation_time now).2.2 =
      Except.ok (extractUuid p) := by
  have hcl : (NalogoService.init inn password).hasClient = true := hconf
  have he := ensure_token_present (NalogoService.init inn password) c t hcl ht htt
  unfold createIncomeReceipt
  rw [hconf, he, buildRequest_eq_some item_name amountStr quantityStr a q
    client operation_time now ha hq]
  simp [hpost]

/-! ### Claim theorems -/

/-- C1 (counterexample): the claim that no exception ever escapes fails.
With a collaborator whose token-presence query `get_token` raises, the
exception escapes `_ensure_authenticated` (the call is outside its `try`)
and then escapes `create_income_receipt` (which awaits
`_ensure_authenticated` outside its own `try`). -/
theorem C1_exception_escape_counterexample :
    (ensureAuthenticated (NalogoService.init (some "123456789012")
      (some "secret")) raisingTokenCollab).2.2 = Except.error () ∧
    (createIncomeReceipt (NalogoService.init (some "123456789012")
      (some "secret")) raisingTokenCollab "Consulting" "100.0" "1.0" none
      none ⟨0⟩).2.2 = Except.error () :=
  ⟨rfl, rfl⟩

/-- C1 (amended): provided the collaborator's token-presence query does not
raise, no exception escapes `_ensure_authenticated` or
`create_income_receipt`: every other collaborator failure (token
acquisition, authentication exchange, the POST, response parsing) is
absorbed and converted to an absent-result return value. -/
theorem C1_no_escape_when_token_query_ok (E : Type) (c : Collab E)
    (svc : NalogoService) (t : JVal)
    (item_name amountStr quantityStr : String) (client : Option IncomeClient)
    (operation_time : Option DateTime) (now : AtomDateTime)
    (ht : c.get_token = Except.ok t) :
    (∃ b, (ensureAuthenticated svc c).2.2 = Except.ok b) ∧
    ∃ v, (createIncomeReceipt svc c item_name amountStr quantityStr client
      operation_time now).2.2 = Except.ok v := by
  obtain ⟨b, hb⟩ := ensure_ok_of_get_token_ok svc c t ht
  refine ⟨⟨b, hb⟩, ?_⟩
  rcases he : ensureAuthenticated svc c with ⟨svc1, tr, r⟩
  rw [he] at hb
  simp only at hb
  subst hb
  cases hc : svc.configured
  · exact ⟨JVal.jnull, by simp [createIncomeReceipt, hc]⟩
  · cases b
    · exact ⟨JVal.jnull, by simp [createIncomeReceipt, hc, he]⟩
    · cases hbr : buildRequest item_name amountStr quantityStr client
          operation_time now with
      | none => exact ⟨JVal.jnull, by simp [createIncomeReceipt, hc, he, hbr]⟩
      | some req =>
        cases hp : c.post "/income" req with
        | error e =>
          exact ⟨JVal.jnull, by simp [createIncomeReceipt, hc, he, hbr, hp]⟩
        | ok resp =>
          cases hj : resp.json with
          | error e =>
            exact ⟨JVal.jnull,
              by simp [createIncomeReceipt, hc, he, hbr, hp, hj]⟩
          | ok payload =>
            exact ⟨extractUuid payload,
              by simp [createIncomeReceipt, hc, he, hbr, hp, hj]⟩

/-- C1 (witness): concrete instance of the amended no-escape theorem. -/
theorem C1_no_escape_witness :
    (∃ b, (ensureAuthenticated (NalogoService.init (some "123") (some "pw"))
      (stubCollab [])).2.2 = Except.ok b) ∧
    ∃ v, (createIncomeReceipt (NalogoService.init (some "123") (some "pw"))
      (stubCollab []) "Consulting" "19.99" "3" none none ⟨0⟩).2.2 =
      Except.ok v :=
  C1_no_escape_when_token_query_ok Unit (stubCollab [])
    (NalogoService.init (some "123") (some "pw")) (JVal.jstr "token")
    "Consulting" "19.99" "3" none none ⟨0⟩ rfl

/-- C2 (counterexample): the extraction is not "first non-absent value
wins".  With `approvedReceiptUuid` present but bound to the empty string
(falsy) and `receiptUuid` bound to `"xyz"`, the operation returns `"xyz"`,
while the first non-absent value is `""`. -/
theorem C2_first_non_absent_counterexample :
    (createIncomeReceipt (NalogoService.init (some "123") (some "pw"))
      (stubCollab [("approvedReceiptUuid", JVal.jstr ""),
        ("receiptUuid", JVal.jstr "xyz")])
      "Consulting" "19.99" "3" none none ⟨0⟩).2.2 =
      Except.ok (JVal.jstr "xyz") ∧
    firstNonAbsentUuid [("approvedReceiptUuid", JVal.jstr ""),
      ("receiptUuid", JVal.jstr "xyz")] = JVal.jstr "" ∧
    JVal.jstr "xyz" ≠ JVal.jstr "" :=
  ⟨rfl, rfl, by simp⟩

/-- C2 (amended): for every successful POST response payload, the receipt
identifier returned by `create_income_receipt` is the first *truthy* value
among `approvedReceiptUuid`, `receiptUuid`, `receipt_uuid` in that priority
order (the last lookup's value when all are falsy); in particular, for the
empty payload the operation returns absent without raising. -/
theorem C2_truthy_priority (E : Type) (c : Collab E)
    (inn password : Option String)
    (item_name amountStr quantityStr : String) (a q : Dec)
    (client : Option IncomeClient) (operation_time : Option DateTime)
    (now : AtomDateTime) (p : List (String × JVal)) (t : JVal)
    (hconf : (NalogoService.init inn password).configured = true)
    (ht : c.get_token = Except.ok t) (htt : truthy t = true)
    (hpost : ∀ path req, c.post path req = Except.ok ⟨Except.ok p⟩)
    (ha : pyDecimal amountStr = some a) (hq : pyDecimal quantityStr = some q) :
    (createIncomeReceipt (NalogoService.init inn password) c item_name
      amountStr quantityStr client operation_time now).2.2 =
      Except.ok
        (if truthy (jget p "approvedReceiptUuid") then
          jget p "approvedReceiptUuid"
         else if truthy (jget p "receiptUuid") then jget p "receiptUuid"
         else jget p "receipt_uuid") ∧
    (p = [] →
      (createIncomeReceipt (NalogoService.init inn password) c item_name
        amountStr quantityStr client operation_time now).2.2 =
        Except.ok JVal.jnull) := by
  have hrun := create_receipt_run c inn password item_name amountStr
    quantityStr a q client operation_time now p t hconf ht htt hpost ha hq
  constructor
  · rw [hrun]
    simp [extractUuid, pyOr]
  · intro hp
    subst hp
    rw [hrun]
    rfl

/-- C2 (witness): with the payload binding only `receiptUuid` to `"xyz"`,
the operation returns `"xyz"`. -/
theorem C2_truthy_priority_witness :
    (createIncomeReceipt (NalogoService.init (some "123") (some "pw"))
      (stubCollab [("receiptUuid", JVal.jstr "xyz")]) "Consulting" "19.99"
      "3" none none ⟨0⟩).2.2 = Except.ok (JVal.jstr "xyz") := by
  rw [(C2_truthy_priority Unit (stubCollab [("receiptUuid", JVal.jstr "xyz")])
    (some "123") (some "pw") "Consulting" "19.99" "3" ⟨1999, 2⟩ ⟨3, 0⟩ none
    none ⟨0⟩ [("receiptUuid", JVal.jstr "xyz")] (JVal.jstr "token") rfl rfl
    rfl (fun _ _ => rfl) rfl rfl).1]
  rfl

/-- C3: the service is configured iff the taxpayer identifier is present
and non-empty after trimming and the secret is present and non-empty; when
unconfigured, every call to `create_income_receipt` returns absent. -/
theorem C3_configured_iff (inn password : Option String) (E : Type)
    (c : Collab E) (item_name amountStr quantityStr : String)
    (client : Option IncomeClient) (operation_time : Option DateTime)
    (now : AtomDateTime) :
    ((NalogoService.init inn password).configured = true ↔
      (∃ s, inn = some s ∧ pyStrip s ≠ "") ∧
        ∃ pw, password = some pw ∧ pw ≠ "") ∧
    ((NalogoService.init inn password).configured = false →
      (createIncomeReceipt (NalogoService.init inn password) c item_name
        amountStr quantityStr client operation_time now).2.2 =
        Except.ok JVal.jnull) := by
  constructor
  · cases inn with
    | none => simp [NalogoService.init, pyStrTruthy]
    | some s =>
      cases hs : s.data.isEmpty with
      | true =>
        have hse : s = "" := by
          cases s
          simp_all [List.isEmpty_iff]
        subst hse
        simp [NalogoService.init, pyStrTruthy, pyStrip]
      | false =>
        have h1 : pyStrTruthy (some (pyStrip s)) = true ↔ pyStrip s ≠ "" := by
          rw [pyStrTruthy_iff]
          simp
        simp only [NalogoService.init, hs, Bool.false_eq_true, if_false,
          Bool.and_eq_true, pyStrTruthy_iff, Option.some.injEq]
        constructor
        · rintro ⟨⟨s1, hs1, hne⟩, hpw⟩
          exact ⟨⟨s, rfl, by simpa [← hs1] using hne⟩, hpw⟩
        · rintro ⟨⟨s1, hs1, hne⟩, hpw⟩
          exact ⟨⟨pyStrip s, rfl, by simpa [hs1] using hne⟩, hpw⟩
  · intro hc
    simp [createIncomeReceipt, hc]

/-- C3 (witness): a configured construction (trimmed non-empty identifier,
non-empty secret) and an unconfigured one on which `create_income_receipt`
returns absent. -/
theorem C3_configured_iff_witness :
    ((NalogoService.init (some " 123 ") (some "pw")).configured = true ↔
      (∃ s, (some " 123 ") = some s ∧ pyStrip s ≠ "") ∧
        ∃ pw, (some "pw" : Option String) = some pw ∧ pw ≠ "") ∧
    (createIncomeReceipt (NalogoService.init none (some "pw"))
      (stubCollab []) "Consulting" "19.99" "3" none none ⟨0⟩).2.2 =
      Except.ok JVal.jnull :=
  ⟨(C3_configured_iff (some " 123 ") (some "pw") Unit (stubCollab [])
      "Consulting" "19.99" "3" none none ⟨0⟩).1,
   (C3_configured_iff none (some "pw") Unit (stubCollab []) "Consulting"
      "19.99" "3" none none ⟨0⟩).2 rfl⟩

/-- C5: when the collaborator reports a token is already held (truthy
`get_token` result), `_ensure_authenticated` returns success having
performed only the token-presence query: it invokes neither the
token-acquisition function nor the authenticate function. -/
theorem C5_token_short_circuit (E : Type) (c : Collab E)
    (svc : NalogoService) (t : JVal) (hcl : svc.hasClient = true)
    (ht : c.get_token = Except.ok t) (htt : truthy t = true) :
    (ensureAuthenticated svc c).2.2 = Except.ok true ∧
    (ensureAuthenticated svc c).2.1 = [Ev.getTokenCall] ∧
    Ev.createTokenCall ∉ (ensureAuthenticated svc c).2.1 ∧
    Ev.authenticateCall ∉ (ensureAuthenticated svc c).2.1 := by
  have h := ensure_token_present svc c t hcl ht htt
  rw [h]
  exact ⟨rfl, rfl, by simp, by simp⟩

/-- C5 (witness): concrete configured service with a held token. -/
theorem C5_token_short_circuit_witness :
    (ensureAuthenticated (NalogoService.init (some "123") (some "pw"))
      (stubCollab [])).2.2 = Except.ok true ∧
    (ensureAuthenticated (NalogoService.init (some "123") (some "pw"))
      (stubCollab [])).2.1 = [Ev.getTokenCall] ∧
    Ev.createTokenCall ∉ (ensureAuthenticated (NalogoService.init
      (some "123") (some "pw")) (stubCollab [])).2.1 ∧
    Ev.authenticateCall ∉ (ensureAuthenticated (NalogoService.init
      (some "123") (some "pw")) (stubCollab [])).2.1 :=
  C5_token_short_circuit Unit (stubCollab [])
    (NalogoService.init (some "123") (some "pw")) (JVal.jstr "token") rfl
    rfl rfl

/-- C8: the configured/unconfigured status and all other fields are decided
at construction and never change: `_ensure_authenticated`,
`create_income_receipt` and `close` all return the service state they were
given, unchanged. -/
theorem C8_fields_immutable (E : Type) (c : Collab E) (svc : NalogoService)
    (item_name amountStr quantityStr : String) (client : Option IncomeClient)
    (operation_time : Option DateTime) (now : AtomDateTime) :
    (ensureAuthenticated svc c).1 = svc ∧
    (createIncomeReceipt svc c item_name amountStr quantityStr client
      operation_time now).1 = svc ∧
    (NalogoService.close svc).1 = svc :=
  ⟨ensure_fst svc c,
   create_fst svc c item_name amountStr quantityStr client operation_time now,
   rfl⟩

theorem create_trace_of_auth_ok {E : Type} (svc : NalogoService)
    (c : Collab E) (item_name amountStr quantityStr : String)
    (client : Option IncomeClient) (operation_time : Option DateTime)
    (now : AtomDateTime) (svc1 : NalogoService) (tr : List Ev)
    (req : IncomeRequest) (hc : svc.configured = true)
    (he : ensureAuthenticated svc c = (svc1, tr, Except.ok true))
    (hb : buildRequest item_name amountStr quantityStr client operation_time
      now = some req) :
    (createIncomeReceipt svc c item_name amountStr quantityStr client
      operation_time now).2.1 = tr ++ [Ev.postCall] := by
  cases hp : c.post "/income" req with
  | error e => simp [createIncomeReceipt, hc, he, hb, hp]
  | ok resp =>
    cases hj : resp.json with
    | error e => simp [createIncomeReceipt, hc, he, hb, hp, hj]
    | ok payload => simp [createIncomeReceipt, hc, he, hb, hp, hj]

/-- C4: `create_income_receipt` issues exactly one HTTP POST on the success
path (authentication succeeded and the request was built), and zero HTTP
requests when a precondition fails: an unconfigured service performs no
collaborator call at all, and when authentication reports failure no POST
is issued.  (`hinv` is the constructor invariant `_client is not None iff
configured`.) -/
theorem C4_post_count (E : Type) (c : Collab E) (svc : NalogoService)
    (item_name amountStr quantityStr : String) (a q : Dec)
    (client : Option IncomeClient) (operation_time : Option DateTime)
    (now : AtomDateTime) (hinv : svc.hasClient = svc.configured)
    (ha : pyDecimal amountStr = some a) (hq : pyDecimal quantityStr = some q) :
    (svc.configured = false →
      (createIncomeReceipt svc c item_name amountStr quantityStr client
        operation_time now).2.1 = []) ∧
    ((ensureAuthenticated svc c).2.2 = Except.ok false →
      countPost (createIncomeReceipt svc c item_name amountStr quantityStr
        client operation_time now).2.1 = 0) ∧
    ((ensureAuthenticated svc c).2.2 = Except.ok true →
      countPost (createIncomeReceipt svc c item_name amountStr quantityStr
        client operation_time now).2.1 = 1) := by
  refine ⟨?_, ?_, ?_⟩
  · intro hc
    simp [createIncomeReceipt, hc]
  · intro hf
    cases hc : svc.configured
    · simp [createIncomeReceipt, hc, countPost]
    · rcases he : ensureAuthenticated svc c with ⟨svc1, tr, r⟩
      rw [he] at hf
      simp only at hf
      subst hf
      have htr : countPost tr = 0 := by
        have h := ensure_countPost svc c
        rw [he] at h
        exact h
      simp [createIncomeReceipt, hc, he, htr]
  · intro hts
    cases hc : svc.configured
    · have hff : (ensureAuthenticated svc c).2.2 = Except.ok false := by
        have hcl : svc.hasClient = false := by rw [hinv, hc]
        simp [ensureAuthenticated, hcl]
      rw [hts] at hff
      simp at hff
    · rcases he : ensureAuthenticated svc c with ⟨svc1, tr, r⟩
      rw [he] at hts
      simp only at hts
      subst hts
      have htr : countPost tr = 0 := by
        have h := ensure_countPost svc c
        rw [he] at h
        exact h
      rw [create_trace_of_auth_ok svc c item_name amountStr quantityStr
        client operation_time now svc1 tr _ hc he
        (buildRequest_eq_some item_name amountStr quantityStr a q client
          operation_time now ha hq)]
      rw [countPost_append, htr]
      rfl

/-- C4 (witness): an unconfigured service performs no collaborator call;
a configured, authenticated one issues exactly one POST. -/
theorem C4_post_count_witness :
    (createIncomeReceipt (NalogoService.init none none) (stubCollab [])
      "Consulting" "19.99" "3" none none ⟨0⟩).2.1 = [] ∧
    countPost (createIncomeReceipt (NalogoService.init (some "123")
      (some "pw")) (stubCollab []) "Consulting" "19.99" "3" none none
      ⟨0⟩).2.1 = 1 :=
  ⟨(C4_post_count Unit (stubCollab []) (NalogoService.init none none)
      "Consulting" "19.99" "3" ⟨1999, 2⟩ ⟨3, 0⟩ none none ⟨0⟩ rfl rfl rfl).1
      rfl,
   (C4_post_count Unit (stubCollab []) (NalogoService.init (some "123")
      (some "pw")) "Consulting" "19.99" "3" ⟨1999, 2⟩ ⟨3, 0⟩ none none ⟨0⟩
      rfl rfl rfl).2.2 rfl⟩

theorem Dec.toRat_mul (a b : Dec) :
    (Dec.mul a b).toRat = a.toRat * b.toRat := by
  simp only [Dec.toRat, Dec.mul, pow_add]
  push_cast
  ring

/-- C6: the service item's amounts are the exact decimals parsed from the
string intermediates `str(amount)` / `str(quantity)`, and the derived total
is the exact decimal (rational) product amount × quantity — no binary
floating-point approximation. -/
theorem C6_exact_decimal_total (item_name amountStr quantityStr : String)
    (a q : Dec) (client : Option IncomeClient)
    (operation_time : Option DateTime) (now : AtomDateTime)
    (ha : pyDecimal amountStr = some a) (hq : pyDecimal quantityStr = some q) :
    ∃ req, buildRequest item_name amountStr quantityStr client
        operation_time now = some req ∧
      req.services = [⟨item_name, a, q⟩] ∧
      (IncomeServiceItem.get_total_amount ⟨item_name, a, q⟩).toRat =
        a.toRat * q.toRat := by
  refine ⟨_, buildRequest_eq_some item_name amountStr quantityStr a q client
    operation_time now ha hq, rfl, ?_⟩
  simp [IncomeServiceItem.get_total_amount, Dec.toRat_mul]

/-- C6 (witness): for `str(amount) = "19.99"` and quantity 3, the item
holds exactly 19.99 and 3, and the total is exactly 59.97. -/
theorem C6_exact_decimal_total_witness :
    (∃ req, buildRequest "Consulting" "19.99" "3" none none ⟨0⟩ = some req ∧
      req.services = [⟨"Consulting", ⟨1999, 2⟩, ⟨3, 0⟩⟩] ∧
      (IncomeServiceItem.get_total_amount
        ⟨"Consulting", ⟨1999, 2⟩, ⟨3, 0⟩⟩).toRat =
        (⟨1999, 2⟩ : Dec).toRat * (⟨3, 0⟩ : Dec).toRat) ∧
    (IncomeServiceItem.get_total_amount
      ⟨"Consulting", ⟨1999, 2⟩, ⟨3, 0⟩⟩).toRat = 5997 / 100 :=
  ⟨C6_exact_decimal_total "Consulting" "19.99" "3" ⟨1999, 2⟩ ⟨3, 0⟩ none none
      ⟨0⟩ rfl rfl,
   by norm_num [IncomeServiceItem.get_total_amount, Dec.mul, Dec.toRat]⟩

/-- C7: the built `IncomeRequest` has operation time = caller-supplied time
when given and the current time otherwise; request time = current time;
a single-item services list; total amount = string form of the computed
total; client = caller-supplied descriptor or a default empty one; payment
type fixed to ACCOUNT; restriction-override fixed to false. -/
theorem C7_request_fields (item_name amountStr quantityStr : String)
    (a q : Dec) (client : Option IncomeClient)
    (operation_time : Option DateTime) (now : AtomDateTime)
    (ha : pyDecimal amountStr = some a) (hq : pyDecimal quantityStr = some q) :
    ∃ req, buildRequest item_name amountStr quantityStr client
        operation_time now = some req ∧
      req.operation_time = (match operation_time with
        | some d => AtomDateTime.from_datetime d
        | none => now) ∧
      req.request_time = now ∧
      req.services = [⟨item_name, a, q⟩] ∧
      req.total_amount =
        Dec.render (IncomeServiceItem.get_total_amount ⟨item_name, a, q⟩) ∧
      req.client = client.getD ⟨[]⟩ ∧
      req.payment_type = PaymentType.ACCOUNT ∧
      req.ignore_max_total_income_restriction = false :=
  ⟨_, buildRequest_eq_some item_name amountStr quantityStr a q client
    operation_time now ha hq, rfl, rfl, rfl, rfl, rfl, rfl, rfl⟩

/-- C7 (witness): with a caller-supplied operation time and client. -/
theorem C7_request_fields_witness :
    ∃ req, buildRequest "Consulting" "19.99" "3" (some ⟨[]⟩) (some ⟨5⟩) ⟨0⟩ =
        some req ∧
      req.operation_time = (match (some (⟨5⟩ : DateTime)) with
        | some d => AtomDateTime.from_datetime d
        | none => (⟨0⟩ : AtomDateTime)) ∧
      req.request_time = ⟨0⟩ ∧
      req.services = [⟨"Consulting", ⟨1999, 2⟩, ⟨3, 0⟩⟩] ∧
      req.total_amount = Dec.render (IncomeServiceItem.get_total_amount
        ⟨"Consulting", ⟨1999, 2⟩, ⟨3, 0⟩⟩) ∧
      req.client = (some (⟨[]⟩ : IncomeClient)).getD ⟨[]⟩ ∧
      req.payment_type = PaymentType.ACCOUNT ∧
      req.ignore_max_total_income_restriction = false :=
  C7_request_fields "Consulting" "19.99" "3" ⟨1999, 2⟩ ⟨3, 0⟩ (some ⟨[]⟩)
    (some ⟨5⟩) ⟨0⟩ rfl rfl

/-- C10: when an earlier identifier key holds a falsy value (such as the
empty string), extraction falls through to the later keys; when all three
lookups are falsy, `create_income_receipt` returns the `receipt_uuid`
lookup's value itself — possibly a present falsy value like `""` rather
than absent. -/
theorem C10_falsy_fallthrough (E : Type) (c : Collab E)
    (inn password : Option String)
    (item_name amountStr quantityStr : String) (a q : Dec)
    (client : Option IncomeClient) (operation_time : Option DateTime)
    (now : AtomDateTime) (p : List (String × JVal)) (t : JVal)
    (hconf : (NalogoService.init inn password).configured = true)
    (ht : c.get_token = Except.ok t) (htt : truthy t = true)
    (hpost : ∀ path req, c.post path req = Except.ok ⟨Except.ok p⟩)
    (ha : pyDecimal amountStr = some a) (hq : pyDecimal quantityStr = some q)
    (h1 : truthy (jget p "approvedReceiptUuid") = false) :
    extractUuid p = pyOr (jget p "receiptUuid") (jget p "receipt_uuid") ∧
    (truthy (jget p "receiptUuid") = false →
      (createIncomeReceipt (NalogoService.init inn password) c item_name
        amountStr quantityStr client operation_time now).2.2 =
        Except.ok (jget p "receipt_uuid")) := by
  have hrun := create_receipt_run c inn password item_name amountStr
    quantityStr a q client operation_time now p t hconf ht htt hpost ha hq
  constructor
  · simp [extractUuid, pyOr, h1]
  · intro h2
    rw [hrun]
    simp [extractUuid, pyOr, h1, h2]

/-- C10 (witness): with all three identifier keys present but bound to the
empty string, extraction falls through and the operation returns the
present falsy value `""` (not absent). -/
theorem C10_falsy_fallthrough_witness :
    extractUuid [("approvedReceiptUuid", JVal.jstr ""),
        ("receiptUuid", JVal.jstr ""), ("receipt_uuid", JVal.jstr "")] =
      pyOr (jget [("approvedReceiptUuid", JVal.jstr ""),
        ("receiptUuid", JVal.jstr ""), ("receipt_uuid", JVal.jstr "")]
        "receiptUuid")
        (jget [("approvedReceiptUuid", JVal.jstr ""),
          ("receiptUuid", JVal.jstr ""), ("receipt_uuid", JVal.jstr "")]
          "receipt_uuid") ∧
    (createIncomeReceipt (NalogoService.init (some "123") (some "pw"))
      (stubCollab [("approvedReceiptUuid", JVal.jstr ""),
        ("receiptUuid", JVal.jstr ""), ("receipt_uuid", JVal.jstr "")])
      "Consulting" "19.99" "3" none none ⟨0⟩).2.2 =
      Except.ok (jget [("approvedReceiptUuid", JVal.jstr ""),
        ("receiptUuid", JVal.jstr ""), ("receipt_uuid", JVal.jstr "")]
        "receipt_uuid") ∧
    jget [("approvedReceiptUuid", JVal.jstr ""),
      ("receiptUuid", JVal.jstr ""), ("receipt_uuid", JVal.jstr "")]
      "receipt_uuid" = JVal.jstr "" :=
  ⟨(C10_falsy_fallthrough Unit
      (stubCollab [("approvedReceiptUuid", JVal.jstr ""),
        ("receiptUuid", JVal.jstr ""), ("receipt_uuid", JVal.jstr "")])
      (some "123") (some "pw") "Consulting" "19.99" "3" ⟨1999, 2⟩ ⟨3, 0⟩
      none none ⟨0⟩
      [("approvedReceiptUuid", JVal.jstr ""), ("receiptUuid", JVal.jstr ""),
        ("receipt_uuid", JVal.jstr "")]
      (JVal.jstr "token") rfl rfl rfl (fun _ _ => rfl) rfl rfl rfl).1,
   (C10_falsy_fallthrough Unit
      (stubCollab [("approvedReceiptUuid", JVal.jstr ""),
        ("receiptUuid", JVal.jstr ""), ("receipt_uuid", JVal.jstr "")])
      (some "123") (some "pw") "Consulting" "19.99" "3" ⟨1999, 2⟩ ⟨3, 0⟩
      none none ⟨0⟩
      [("approvedReceiptUuid", JVal.jstr ""), ("receiptUuid", JVal.jstr ""),
        ("receipt_uuid", JVal.jstr "")]
      (JVal.jstr "token") rfl rfl rfl (fun _ _ => rfl) rfl rfl rfl).2 rfl,
   rfl⟩
